import Mathlib

/-!
Verification of `serve.py`, a minimal static-file HTTPS server for
Office Add-in development.

The script under `src/serve.py` configures Python's stock
`SimpleHTTPRequestHandler`, registers six MIME-type overrides, loads a
certificate/key pair into a TLS context, wraps the listening socket and
runs `serve_forever`.  The request-handling machinery itself lives in the
interpreter's `http.server` library, not in the repository; wherever a
definition embeds that missing machinery it is modelled from the
specification (its doc comment says so), while everything the script
itself fixes (the MIME override table, the port, the host, the
certificate paths, the absence of an interrupt handler) is translated
from `src/serve.py` directly.

Paths are modelled as lists of segments; file contents as lists of bytes
(`List Nat`); the filesystem as an association list from paths to
contents.
-/

namespace Serve

/-- A filesystem: an association list mapping a path (list of segments,
relative to the base directory) to the bytes of the regular file stored
there. -/
def Fs : Type := List (List String × List Nat)

/-- Modelled from the spec: the normalization step of the Static File
Resolver (spec §4.2), which is implemented by the interpreter's
`http.server` library and is absent from `src/`.  Segments are folded
over a stack: empty and `.` segments are dropped, `..` pops one segment,
and a `..` that would climb above the base directory makes the whole
normalization fail (`none`), which the resolver turns into a
"forbidden" outcome. -/
def normAux : List String → List String → Option (List String)
  | st, [] => some st.reverse
  | st, seg :: rest =>
    if seg = "" ∨ seg = "." then normAux st rest
    else if seg = ".." then
      match st with
      | [] => none
      | _ :: t => normAux t rest
    else normAux (seg :: st) rest

/-- Modelled from the spec: normalization of a full request path
(spec §4.2), starting from an empty stack rooted at the base
directory. -/
def normalize (segs : List String) : Option (List String) :=
  normAux [] segs

/-- Outcome of the Static File Resolver: a resolved path/bytes pair, a
"not found" signal, or a "forbidden" signal. -/
inductive Resolution : Type where
  | ok (p : List String) (bytes : List Nat)
  | notFound
  | forbidden
deriving DecidableEq

/-- Modelled from the spec: the Static File Resolver (spec §4.2), which
is implemented by the interpreter's `http.server` library and is absent
from `src/`.  A path whose normalization escapes the base directory is
forbidden before any filesystem access; otherwise the normalized path is
looked up as a regular file, then (directory case) with `index.html`
appended; otherwise the resource is not found. -/
def resolve (fs : Fs) (segs : List String) : Resolution :=
  match normalize segs with
  | none => .forbidden
  | some p =>
    match List.lookup p fs with
    | some bytes => .ok p bytes
    | none =>
      match List.lookup (p ++ ["index.html"]) fs with
      | some bytes => .ok (p ++ ["index.html"]) bytes
      | none => .notFound

/-- The MIME override table registered by the script, translated from
`src/serve.py` lines 15–22 (`handler.extensions_map.update`). -/
def extensions_map : List (String × String) :=
  [ (".js", "application/javascript"),
    (".css", "text/css"),
    (".html", "text/html"),
    (".json", "application/json"),
    (".png", "image/png"),
    (".xml", "application/xml") ]

/-- Modelled from the spec: the MIME Resolver (spec §4.1).  The override
table from `src/serve.py` is consulted first; `builtin` stands for the
interpreter's built-in defaults for common types, which are not part of
the repository; everything else falls back to
`application/octet-stream`. -/
def guess_type (builtin : String → Option String) (ext : String) : String :=
  match List.lookup ext extensions_map with
  | some t => t
  | none =>
    match builtin ext with
    | some t => t
    | none => "application/octet-stream"

/-- The extension of a file name: the part from the last dot on,
lowercased; empty when the name has no dot. -/
def extOf (name : String) : String :=
  if name.data.contains '.' then
    "." ++ String.mk (((name.data.reverse.takeWhile fun c => c ≠ '.').reverse).map Char.toLower)
  else ""

/-- An HTTP request: method and URL path (as segments). -/
structure Request : Type where
  method : String
  path : List String
deriving DecidableEq

/-- An HTTP response: status code, the two headers the server emits on
success, and the body bytes. -/
structure Response : Type where
  status : Nat
  contentType : Option String
  contentLength : Option Nat
  body : List Nat
deriving DecidableEq

/-- Modelled from the spec: the DISPATCH/RESPONSE part of the HTTP
Request Loop (spec §4.4), which is implemented by the interpreter's
`http.server` library and is absent from `src/`.  GET and HEAD run the
Static File Resolver: forbidden → 403, not found → 404, success → 200
with `Content-Type` from the MIME Resolver keyed on the resolved file's
extension and `Content-Length` the resolved byte length; HEAD omits the
body; any other method yields the 405 status. -/
def handleRequest (builtin : String → Option String) (fs : Fs)
    (req : Request) : Response :=
  if req.method = "GET" ∨ req.method = "HEAD" then
    match resolve fs req.path with
    | .forbidden => { status := 403, contentType := none, contentLength := none, body := [] }
    | .notFound => { status := 404, contentType := none, contentLength := none, body := [] }
    | .ok p bytes =>
      { status := 200,
        contentType := some (guess_type builtin (extOf (p.getLastD ""))),
        contentLength := some bytes.length,
        body := if req.method = "HEAD" then [] else bytes }
  else { status := 405, contentType := none, contentLength := none, body := [] }

-- Helper lemmas about normalization.

/-- A path all of whose segments are ordinary names (no empty, `.` or
`..` segments) normalizes, from any stack, by simply appending. -/
theorem normAux_clean (p : List String) :
    ∀ st : List String, (∀ s ∈ p, s ≠ "" ∧ s ≠ "." ∧ s ≠ "..") →
      normAux st p = some (st.reverse ++ p) := by
  induction p with
  | nil => intro st _; simp [normAux]
  | cons a rest ih =>
    intro st hp
    have ha := hp a (by simp)
    have hrest : ∀ s ∈ rest, s ≠ "" ∧ s ≠ "." ∧ s ≠ ".." := by
      intro s hs; exact hp s (by simp [hs])
    simp only [normAux]
    rw [if_neg (by simp [ha.1, ha.2.1]), if_neg ha.2.2, ih (a :: st) hrest]
    simp

/-- A path of ordinary names normalizes to itself. -/
theorem normalize_clean (p : List String)
    (hp : ∀ s ∈ p, s ≠ "" ∧ s ≠ "." ∧ s ≠ "..") :
    normalize p = some p := by
  unfold normalize
  rw [normAux_clean p [] hp]
  simp

-- Paths fixed by the script, translated from `src/serve.py` lines 8–12.
-- `BASE_DIR` is the directory containing the script (abstract here, a
-- parameter `scriptDir`); the script changes its working directory to it
-- (`os.chdir(BASE_DIR)`, line 12), so the handler's base directory is
-- `scriptDir` itself.

/-- The certificate path, `os.path.join(BASE_DIR, 'certs', 'server.crt')`
from `src/serve.py` line 9. -/
def CERT_FILE (scriptDir : List String) : List String :=
  scriptDir ++ ["certs", "server.crt"]

/-- The private-key path, `os.path.join(BASE_DIR, 'certs', 'server.key')`
from `src/serve.py` line 10. -/
def KEY_FILE (scriptDir : List String) : List String :=
  scriptDir ++ ["certs", "server.key"]

/-- The base directory the handler serves: the script's own directory,
because of `os.chdir(BASE_DIR)` at `src/serve.py` line 12. -/
def servedBase (scriptDir : List String) : List String := scriptDir

-- Concrete data for the witnesses below.

/-- Twenty bytes standing for the contents of a demonstration `app.js`. -/
def appJsBytes : List Nat :=
  [99, 111, 110, 115, 111, 108, 101, 46, 108, 111,
   103, 40, 34, 104, 105, 34, 41, 59, 10, 10]

/-- A one-file demonstration filesystem holding `app.js`. -/
def demoFs : Fs := [(["app.js"], appJsBytes)]

/-- Five bytes standing for the contents of `certs/server.key`. -/
def demoKeyBytes : List Nat := [45, 45, 75, 69, 89]

/-- A demonstration filesystem holding `certs/server.key`. -/
def keyFs : Fs := [(["certs", "server.key"], demoKeyBytes)]

/-- C1: a request whose URL path normalizes outside the base directory is
answered with the forbidden status and an empty body (for both GET and
HEAD), the resolver signals forbidden without consulting the filesystem,
and every path the resolver does hand to the response writer comes from a
successful in-base normalization (possibly with `index.html` appended),
hence is a descendant of the base directory. -/
theorem c1_outside_base_rejected (builtin : String → Option String)
    (fs : Fs) (segs : List String) (hout : normalize segs = none) :
    resolve fs segs = .forbidden ∧
    (handleRequest builtin fs ⟨"GET", segs⟩).status = 403 ∧
    (handleRequest builtin fs ⟨"GET", segs⟩).body = [] ∧
    (handleRequest builtin fs ⟨"HEAD", segs⟩).status = 403 ∧
    (handleRequest builtin fs ⟨"HEAD", segs⟩).body = [] ∧
    (∀ segs' p bytes, resolve fs segs' = .ok p bytes →
      ∃ q, normalize segs' = some q ∧ (p = q ∨ p = q ++ ["index.html"])) := by
  have hres : resolve fs segs = .forbidden := by simp [resolve, hout]
  refine ⟨hres, ?_, ?_, ?_, ?_, ?_⟩
  · simp [handleRequest, hres]
  · simp [handleRequest, hres]
  · simp [handleRequest, hres]
  · simp [handleRequest, hres]
  · intro segs' p bytes h
    unfold resolve at h
    split at h
    · exact Resolution.noConfusion h
    · rename_i q hn
      refine ⟨q, hn, ?_⟩
      split at h
      · injection h with hq _
        exact Or.inl hq.symm
      · split at h
        · injection h with hq _
          exact Or.inr hq.symm
        · exact Resolution.noConfusion h

/-- C1 witness: the traversal path `/../../etc/passwd` normalizes outside
the base directory and is rejected with 403 on a concrete filesystem. -/
theorem c1_outside_base_rejected_witness :
    normalize ["..", "..", "etc", "passwd"] = none ∧
    (handleRequest (fun _ => none) [(["etc", "passwd"], [114, 111, 111, 116])]
        ⟨"GET", ["..", "..", "etc", "passwd"]⟩).status = 403 :=
  ⟨by decide,
   (c1_outside_base_rejected (fun _ => none)
      [(["etc", "passwd"], [114, 111, 111, 116])]
      ["..", "..", "etc", "passwd"] (by decide)).2.1⟩

/-- C2: a GET request for an existing regular file beneath the base
directory (a path of ordinary segments present in the filesystem) is
answered with status 200, a `Content-Length` equal to the file's byte
size, and a body byte-identical to the file's contents. -/
theorem c2_existing_file_served (builtin : String → Option String)
    (fs : Fs) (p : List String) (bytes : List Nat)
    (hp : ∀ s ∈ p, s ≠ "" ∧ s ≠ "." ∧ s ≠ "..")
    (hf : List.lookup p fs = some bytes) :
    handleRequest builtin fs ⟨"GET", p⟩ =
      { status := 200,
        contentType := some (guess_type builtin (extOf (p.getLastD ""))),
        contentLength := some bytes.length,
        body := bytes } := by
  have hn := normalize_clean p hp
  simp [handleRequest, resolve, hn, hf]

/-- C2 witness: a 20-byte `app.js` is served with 200,
`Content-Type: application/javascript` and `Content-Length: 20`. -/
theorem c2_existing_file_served_witness :
    handleRequest (fun _ => none) demoFs ⟨"GET", ["app.js"]⟩ =
      { status := 200,
        contentType := some "application/javascript",
        contentLength := some 20,
        body := appJsBytes } :=
  (c2_existing_file_served (fun _ => none) demoFs ["app.js"] appJsBytes
      (by decide) (by decide)).trans (by decide)

/-- C3: for an existing file, a HEAD request returns the same status and
the same `Content-Type`/`Content-Length` headers as the equivalent GET
request, but with an empty body. -/
theorem c3_head_matches_get (builtin : String → Option String)
    (fs : Fs) (segs p : List String) (bytes : List Nat)
    (h : resolve fs segs = .ok p bytes) :
    (handleRequest builtin fs ⟨"HEAD", segs⟩).status =
      (handleRequest builtin fs ⟨"GET", segs⟩).status ∧
    (handleRequest builtin fs ⟨"HEAD", segs⟩).contentType =
      (handleRequest builtin fs ⟨"GET", segs⟩).contentType ∧
    (handleRequest builtin fs ⟨"HEAD", segs⟩).contentLength =
      (handleRequest builtin fs ⟨"GET", segs⟩).contentLength ∧
    (handleRequest builtin fs ⟨"HEAD", segs⟩).body = [] := by
  simp [handleRequest, h]

/-- C3 witness: HEAD and GET agree on status and headers for a concrete
one-file filesystem, and the HEAD body is empty. -/
theorem c3_head_matches_get_witness :
    resolve [(["index.html"], [60, 104, 49, 62])] ["index.html"] =
      .ok ["index.html"] [60, 104, 49, 62] ∧
    (handleRequest (fun _ => none) [(["index.html"], [60, 104, 49, 62])]
        ⟨"HEAD", ["index.html"]⟩).body = [] :=
  ⟨by decide,
   (c3_head_matches_get (fun _ => none) [(["index.html"], [60, 104, 49, 62])]
      ["index.html"] ["index.html"] [60, 104, 49, 62] (by decide)).2.2.2⟩

/-- C4: a request whose method is neither GET nor HEAD is answered with
status 405, a 4xx method-not-allowed status. -/
theorem c4_other_method_405 (builtin : String → Option String)
    (fs : Fs) (segs : List String) (m : String)
    (h1 : m ≠ "GET") (h2 : m ≠ "HEAD") :
    (handleRequest builtin fs ⟨m, segs⟩).status = 405 ∧
    400 ≤ (handleRequest builtin fs ⟨m, segs⟩).status ∧
    (handleRequest builtin fs ⟨m, segs⟩).status < 500 := by
  have hr : handleRequest builtin fs ⟨m, segs⟩ =
      { status := 405, contentType := none, contentLength := none, body := [] } := by
    simp [handleRequest, h1, h2]
  rw [hr]
  exact ⟨rfl, by norm_num, by norm_num⟩

/-- C4 witness: a POST request gets status 405 on a concrete
filesystem. -/
theorem c4_other_method_405_witness :
    (handleRequest (fun _ => none) [(["app.js"], [59])]
        ⟨"POST", ["app.js"]⟩).status = 405 :=
  (c4_other_method_405 (fun _ => none) [(["app.js"], [59])] ["app.js"]
      "POST" (by decide) (by decide)).1

/-- C5: the MIME resolver maps the six overridden extensions from
`src/serve.py` to their content types regardless of the interpreter's
built-in defaults, and every extension found neither in the table nor in
the built-in defaults resolves to `application/octet-stream`; the
resolver is a function of the extension alone. -/
theorem c5_mime_table (builtin : String → Option String) (ext : String)
    (htab : List.lookup ext extensions_map = none)
    (hb : builtin ext = none) :
    guess_type builtin ".js" = "application/javascript" ∧
    guess_type builtin ".css" = "text/css" ∧
    guess_type builtin ".html" = "text/html" ∧
    guess_type builtin ".json" = "application/json" ∧
    guess_type builtin ".png" = "image/png" ∧
    guess_type builtin ".xml" = "application/xml" ∧
    guess_type builtin ext = "application/octet-stream" :=
  ⟨rfl, rfl, rfl, rfl, rfl, rfl, by simp [guess_type, htab, hb]⟩

/-- C5 witness: with no built-in defaults, `.woff2` is not in the table
and resolves to `application/octet-stream`, while `.js` resolves to
`application/javascript`. -/
theorem c5_mime_table_witness :
    List.lookup ".woff2" extensions_map = none ∧
    guess_type (fun _ => none) ".woff2" = "application/octet-stream" ∧
    guess_type (fun _ => none) ".js" = "application/javascript" :=
  ⟨by decide,
   (c5_mime_table (fun _ => none) ".woff2" (by decide) rfl).2.2.2.2.2.2,
   (c5_mime_table (fun _ => none) ".woff2" (by decide) rfl).1⟩

/-- C10: the private-key path built at `src/serve.py` line 10 lies
beneath the served base directory (the script's own directory, which the
process enters via `os.chdir`), so `GET /certs/server.key` resolves to an
ordinary servable file; when that file exists, the response is 200 and
its body is exactly the private key's bytes. -/
theorem c10_key_file_served (builtin : String → Option String)
    (scriptDir : List String) (fs : Fs) (keyBytes : List Nat)
    (hf : List.lookup ["certs", "server.key"] fs = some keyBytes) :
    KEY_FILE scriptDir = servedBase scriptDir ++ ["certs", "server.key"] ∧
    servedBase scriptDir <+: KEY_FILE scriptDir ∧
    resolve fs ["certs", "server.key"] = .ok ["certs", "server.key"] keyBytes ∧
    (handleRequest builtin fs ⟨"GET", ["certs", "server.key"]⟩).status = 200 ∧
    (handleRequest builtin fs ⟨"GET", ["certs", "server.key"]⟩).body = keyBytes := by
  have hres : resolve fs ["certs", "server.key"] =
      .ok ["certs", "server.key"] keyBytes := by
    have hn : normalize ["certs", "server.key"] = some ["certs", "server.key"] := by
      decide
    simp [resolve, hn, hf]
  refine ⟨rfl, List.prefix_append _ _, hres, ?_, ?_⟩
  · simp [handleRequest, hres]
  · simp [handleRequest, hres]

/-- C10 witness: on a concrete filesystem holding a 5-byte
`certs/server.key`, the GET request returns 200 with the key bytes. -/
theorem c10_key_file_served_witness :
    (handleRequest (fun _ => none) keyFs
        ⟨"GET", ["certs", "server.key"]⟩).status = 200 ∧
    (handleRequest (fun _ => none) keyFs
        ⟨"GET", ["certs", "server.key"]⟩).body = demoKeyBytes :=
  ⟨(c10_key_file_served (fun _ => none) ["srv"] keyFs demoKeyBytes
      (by decide)).2.2.2.1,
   (c10_key_file_served (fun _ => none) ["srv"] keyFs demoKeyBytes
      (by decide)).2.2.2.2⟩

-- The per-connection state machine and the accept loop (claim C6).

/-- Modelled from the spec: the per-connection phases of the HTTP Request
Loop state machine (spec §4.4), `ACCEPTED → TLS_HANDSHAKE → REQUEST_LINE
→ HEADERS → DISPATCH → RESPONSE → CLOSED`; the loop itself is the
interpreter's `http.server`/`socketserver` machinery and is absent from
`src/`. -/
inductive ConnPhase : Type where
  | accepted
  | tlsHandshake
  | requestLine
  | headersPhase
  | dispatch
  | responsePhase
  | closed
deriving DecidableEq

/-- A connection: its current phase, and whether the client actually
speaks TLS (a plain client can never complete the handshake). -/
structure Conn : Type where
  phase : ConnPhase
  speaksTLS : Bool
deriving DecidableEq

/-- Modelled from the spec: the transitions of the per-connection state
machine (spec §4.4).  The socket is wrapped by the TLS context before the
loop starts (`src/serve.py` line 28), so the only transition out of
`accepted` is into the TLS handshake; the handshake succeeds only for a
client that speaks TLS, and its failure moves the connection straight to
`closed`. -/
inductive ConnStep : Conn → Conn → Prop where
  | toHandshake (t : Bool) : ConnStep ⟨.accepted, t⟩ ⟨.tlsHandshake, t⟩
  | handshakeOk : ConnStep ⟨.tlsHandshake, true⟩ ⟨.requestLine, true⟩
  | handshakeFail (t : Bool) : ConnStep ⟨.tlsHandshake, t⟩ ⟨.closed, t⟩
  | requestOk (t : Bool) : ConnStep ⟨.requestLine, t⟩ ⟨.headersPhase, t⟩
  | requestBad (t : Bool) : ConnStep ⟨.requestLine, t⟩ ⟨.closed, t⟩
  | headersDone (t : Bool) : ConnStep ⟨.headersPhase, t⟩ ⟨.dispatch, t⟩
  | dispatched (t : Bool) : ConnStep ⟨.dispatch, t⟩ ⟨.responsePhase, t⟩
  | responded (t : Bool) : ConnStep ⟨.responsePhase, t⟩ ⟨.closed, t⟩

/-- The phases in which HTTP bytes are read or interpreted. -/
def readsHTTP : ConnPhase → Bool
  | .requestLine => true
  | .headersPhase => true
  | .dispatch => true
  | .responsePhase => true
  | _ => false

/-- Modelled from the spec: the server's accept loop acting on a pool of
connections (spec §4.4 and §5); the loop may accept a new connection
while listening, or advance any single existing connection by one
transition, leaving all others untouched. -/
structure ServerSt : Type where
  listening : Bool
  conns : List Conn

/-- The server state after the TLS handshake of connection `i` fails:
that connection becomes `closed`, nothing else changes. -/
def failTLS (s : ServerSt) (i : Nat) (t : Bool) : ServerSt :=
  ⟨s.listening, s.conns.set i ⟨.closed, t⟩⟩

/-- Modelled from the spec: one step of the accept loop (spec §4.4, §5):
either accept a fresh connection (only while listening), or advance one
connection by a `ConnStep`. -/
inductive ServerStep : ServerSt → ServerSt → Prop where
  | accept (s : ServerSt) (t : Bool) (h : s.listening = true) :
      ServerStep s ⟨s.listening, s.conns ++ [⟨.accepted, t⟩]⟩
  | connStep (s : ServerSt) (i : Nat) (c c' : Conn)
      (hc : s.conns[i]? = some c) (hs : ConnStep c c') :
      ServerStep s ⟨s.listening, s.conns.set i c'⟩

/-- Invariant: a connection whose client does not speak TLS never leaves
the phases `accepted`, `tlsHandshake`, `closed`. -/
theorem plain_conn_inv (c : Conn)
    (h : Relation.ReflTransGen ConnStep ⟨.accepted, false⟩ c) :
    c.speaksTLS = false ∧
    (c.phase = .accepted ∨ c.phase = .tlsHandshake ∨ c.phase = .closed) := by
  induction h with
  | refl => exact ⟨rfl, Or.inl rfl⟩
  | tail hab hbc ih =>
    cases hbc with
    | toHandshake t => exact ⟨ih.1, Or.inr (Or.inl rfl)⟩
    | handshakeOk => exact absurd ih.1 (by simp)
    | handshakeFail t => exact ⟨ih.1, Or.inr (Or.inr rfl)⟩
    | requestOk t => rcases ih.2 with h | h | h <;> exact ConnPhase.noConfusion h
    | requestBad t => rcases ih.2 with h | h | h <;> exact ConnPhase.noConfusion h
    | headersDone t => rcases ih.2 with h | h | h <;> exact ConnPhase.noConfusion h
    | dispatched t => rcases ih.2 with h | h | h <;> exact ConnPhase.noConfusion h
    | responded t => rcases ih.2 with h | h | h <;> exact ConnPhase.noConfusion h

/-- C6: on the TLS-wrapped listener no connection is ever served as
plaintext HTTP: (a) every connection accepted from a client that does not
speak TLS can never reach a phase that reads HTTP bytes; (b) the only
transition out of `accepted` is into the TLS handshake, and the only
transition into `requestLine` (the first HTTP read) comes from a
successful handshake of a TLS-speaking client; (c) a handshake failure on
one connection is a legal server step that closes exactly that
connection, leaves every other connection untouched and keeps the
listener (and hence the accept loop) alive. -/
theorem c6_tls_before_http (c : Conn)
    (h : Relation.ReflTransGen ConnStep ⟨.accepted, false⟩ c) :
    readsHTTP c.phase = false ∧
    (∀ (t : Bool) (c' : Conn), ConnStep ⟨.accepted, t⟩ c' →
      c' = ⟨.tlsHandshake, t⟩) ∧
    (∀ b c' : Conn, ConnStep b c' → c'.phase = .requestLine →
      b = ⟨.tlsHandshake, true⟩) ∧
    (∀ (s : ServerSt) (i : Nat) (t : Bool),
      s.conns[i]? = some ⟨.tlsHandshake, t⟩ →
      ServerStep s (failTLS s i t) ∧
      (failTLS s i t).listening = s.listening ∧
      ∀ j, j ≠ i → (failTLS s i t).conns[j]? = s.conns[j]?) := by
  refine ⟨?_, ?_, ?_, ?_⟩
  · rcases plain_conn_inv c h with ⟨-, h2 | h2 | h2⟩ <;> simp [h2, readsHTTP]
  · intro t c' hstep
    cases hstep
    rfl
  · intro b c' hstep hphase
    cases hstep <;> first | rfl | exact absurd hphase (by simp)
  · intro s i t hc
    refine ⟨ServerStep.connStep s i ⟨.tlsHandshake, t⟩ ⟨.closed, t⟩ hc
        (ConnStep.handshakeFail t), rfl, ?_⟩
    intro j hj
    exact List.getElem?_set_ne (fun hij => hj hij.symm)

/-- C6 witness: the concrete plain-client run `accepted → tlsHandshake →
closed` (handshake failure) ends in a phase that reads no HTTP bytes. -/
theorem c6_tls_before_http_witness :
    readsHTTP (Conn.mk .closed false).phase = false :=
  (c6_tls_before_http ⟨.closed, false⟩
    (Relation.ReflTransGen.tail
      (Relation.ReflTransGen.single (ConnStep.toHandshake false))
      (ConnStep.handshakeFail false))).1

-- The process-level run of the script (claims C7 and C8).

/-- The startup/run environment of one execution of `serve.py`: whether
the certificate/key pair loads (files present, readable and matching),
and whether an interrupt signal arrives while serving. -/
structure Env : Type where
  certChainOk : Bool
  interrupted : Bool
deriving DecidableEq

/-- What a terminated run of the process left behind: its exit code,
whether `serve_forever` was ever entered, whether the listening socket
was closed by an orderly server shutdown (as opposed to process
teardown), and whether a diagnostic was printed. -/
structure ProcResult : Type where
  exitCode : Nat
  startedServing : Bool
  listenerClosedOrderly : Bool
  printedDiag : Bool
deriving DecidableEq

/-- A process run either terminates with a result or runs forever. -/
inductive Outcome : Type where
  | terminates (r : ProcResult)
  | runsForever
deriving DecidableEq

/-- Modelled from the spec: one run of `serve.py` at process level.  The
script's order is fixed by `src/serve.py`: `load_cert_chain` (line 27)
runs before `serve_forever` (line 32), and the script wraps neither in
any `try`/`except` and never calls `server_close`.  So: a failing
certificate/key load raises before serving starts and the uncaught
exception ends the interpreter with exit code 1 and a printed traceback;
an interrupt while serving raises `KeyboardInterrupt` out of
`serve_forever`, which nothing catches, so the interpreter dies on the
signal (conventional exit status 130) with a traceback, without any
orderly close of the listener; with no interrupt the loop never
returns. -/
def runScript (e : Env) : Outcome :=
  if e.certChainOk = false then
    .terminates { exitCode := 1, startedServing := false,
                  listenerClosedOrderly := false, printedDiag := true }
  else if e.interrupted then
    .terminates { exitCode := 130, startedServing := true,
                  listenerClosedOrderly := false, printedDiag := true }
  else
    .runsForever

/-- The exit code of a run, when it terminates. -/
def exitOf : Outcome → Option Nat
  | .terminates r => some r.exitCode
  | .runsForever => none

/-- Whether a terminated run closed the listener in an orderly server
shutdown. -/
def orderlyCloseOf : Outcome → Option Bool
  | .terminates r => some r.listenerClosedOrderly
  | .runsForever => none

/-- Whether a terminated run ever began serving requests. -/
def servedOf : Outcome → Option Bool
  | .terminates r => some r.startedServing
  | .runsForever => none

/-- C7: when the certificate or key file is missing, unreadable or
mismatched, the process terminates with a non-zero exit code and a
printed diagnostic before it begins serving any request. -/
theorem c7_bad_cert_fails_fast (e : Env) (h : e.certChainOk = false) :
    runScript e = .terminates { exitCode := 1, startedServing := false,
                                listenerClosedOrderly := false,
                                printedDiag := true } ∧
    exitOf (runScript e) ≠ some 0 ∧
    servedOf (runScript e) = some false := by
  obtain ⟨co, ir⟩ := e
  subst h
  exact ⟨rfl, by simp [runScript, exitOf], rfl⟩

/-- C7 witness: a run with a bad certificate chain and no interrupt exits
with code 1 without serving. -/
theorem c7_bad_cert_fails_fast_witness :
    exitOf (runScript ⟨false, false⟩) ≠ some 0 ∧
    servedOf (runScript ⟨false, false⟩) = some false :=
  ⟨(c7_bad_cert_fails_fast ⟨false, false⟩ rfl).2.1,
   (c7_bad_cert_fails_fast ⟨false, false⟩ rfl).2.2⟩

/-- C8 counterexample: in the run where the certificate loads and an
interrupt arrives while serving, the process exits with status 130 — not
0 — and the listening socket is not closed by an orderly shutdown,
because `src/serve.py` neither catches `KeyboardInterrupt` nor calls
`server_close`. -/
theorem c8_interrupt_cex :
    runScript ⟨true, true⟩ = .terminates { exitCode := 130,
                                           startedServing := true,
                                           listenerClosedOrderly := false,
                                           printedDiag := true } ∧
    exitOf (runScript ⟨true, true⟩) ≠ some 0 ∧
    orderlyCloseOf (runScript ⟨true, true⟩) = some false := by
  exact ⟨rfl, by decide, rfl⟩

/-- C8 (amended): when the process receives an interrupt while serving,
the serve loop terminates by the interrupt propagating as an uncaught
exception: the process exits with a non-zero status (130) and the
listening socket is reclaimed by process teardown, not by an orderly
server shutdown. -/
theorem c8_interrupt_amended (e : Env)
    (hc : e.certChainOk = true) (hi : e.interrupted = true) :
    runScript e = .terminates { exitCode := 130, startedServing := true,
                                listenerClosedOrderly := false,
                                printedDiag := true } ∧
    exitOf (runScript e) ≠ some 0 ∧
    orderlyCloseOf (runScript e) = some false := by
  obtain ⟨co, ir⟩ := e
  subst hc
  subst hi
  exact ⟨rfl, by decide, rfl⟩

/-- C8 (amended) witness: the interrupted run with a good certificate
terminates with exit status 130 and no orderly close. -/
theorem c8_interrupt_amended_witness :
    exitOf (runScript ⟨true, true⟩) ≠ some 0 ∧
    orderlyCloseOf (runScript ⟨true, true⟩) = some false :=
  ⟨(c8_interrupt_amended ⟨true, true⟩ rfl rfl).2.1,
   (c8_interrupt_amended ⟨true, true⟩ rfl rfl).2.2⟩

-- The listen configuration (claim C9).

/-- The listening host and port. -/
structure Config : Type where
  host : String
  port : Nat
deriving DecidableEq

/-- The listen configuration of the script, translated from
`src/serve.py` line 7 (`PORT = 3000`) and line 24
(`HTTPServer(('localhost', PORT), handler)`).  The script reads neither
command-line arguments nor environment variables (it never touches
`sys.argv` or `os.environ`), so the configuration is the same whatever
`argv` and `osEnv` the process is started with. -/
def scriptConfig (_argv : List String) (_osEnv : List (String × String)) :
    Config :=
  { host := "localhost", port := 3000 }

/-- C9 counterexample: starting the process with an explicit port/host
override on the command line and in the environment still yields the
fixed address `localhost:3000` — the configuration is not overridable. -/
theorem c9_fixed_port_cex :
    scriptConfig ["--port", "8080", "--host", "0.0.0.0"] [("PORT", "8080")] =
      { host := "localhost", port := 3000 } ∧
    (scriptConfig ["--port", "8080", "--host", "0.0.0.0"]
        [("PORT", "8080")]).port ≠ 8080 := by
  exact ⟨rfl, by decide⟩

/-- C9 (amended): the server listens on `localhost` (the loopback
interface) on port 3000; host and port are hardcoded constants of the
script, identical for every command line and environment, with no
configuration override. -/
theorem c9_fixed_address (argv : List String)
    (osEnv : List (String × String)) :
    (scriptConfig argv osEnv).host = "localhost" ∧
    (scriptConfig argv osEnv).port = 3000 ∧
    scriptConfig argv osEnv = scriptConfig [] [] :=
  ⟨rfl, rfl, rfl⟩

end Serve
